import Mathlib

/-!
Verification development for the sla-fw firmware sources.

The definitions below are shallow embeddings of the Python sources:
pure functions become Lean functions over ℤ/ℕ/ℚ, stateful routines become
explicit state-passing functions, Python exceptions become `Except`/`Option`
results, and Python floor division `//` becomes `Int.fdiv`.  Hardware and
environment interactions (motion controller, sensors) are abstracted as
explicit oracle parameters.
-/

/- ============================================================ -/
/- Unit conversion (slafw/configs/hw.py)                        -/
/- ============================================================ -/

/-- Embeds `HwConfig.tower_microstep_size_nm` (slafw/configs/hw.py, lines 60-67):
`(self.screwMm * 1000 * 1000) // (200 * 16)`. -/
def towerMicrostepSizeNm (screwMm : ℤ) : ℤ :=
  Int.fdiv (screwMm * 1000 * 1000) (200 * 16)

/-- Embeds `HwConfig.tower_microsteps_to_nm` (slafw/configs/hw.py, lines 25-32):
multiplication by the microstep size. -/
def towerMicrostepsToNm (screwMm : ℤ) (microsteps : ℤ) : ℤ :=
  towerMicrostepSizeNm screwMm * microsteps

/-- Embeds `HwConfig.nm_to_tower_microsteps` (slafw/configs/hw.py, lines 34-41):
`nanometers // self.tower_microstep_size_nm`, a Python floor division. -/
def nmToTowerMicrosteps (screwMm : ℤ) (nanometers : ℤ) : ℤ :=
  Int.fdiv nanometers (towerMicrostepSizeNm screwMm)

/- ============================================================ -/
/- Per-layer exposure bucketing (firmware/sl1fw/libExposure.py, -/
/- ExposureThread.run, lines 350-380)                           -/
/- ============================================================ -/

/-- Embeds the relevant fields of `PrintConfig` (firmware/sl1fw/libConfig.py):
exposure times are Python floats modelled as exact rationals, step heights
are microstep counts. -/
structure PrintConfig where
  expTime : ℚ
  expTime2 : ℚ
  expTime3 : ℚ
  expTimeFirst : ℚ
  layerMicroSteps : ℤ
  layerMicroSteps2 : ℤ
  layerMicroSteps3 : ℤ
  layerMicroStepsFirst : ℤ
  fadeLayers : ℕ
  slice2 : ℕ
  slice3 : ℕ
deriving DecidableEq

/-- Embeds the per-layer step/exposure-time bucketing of
`ExposureThread.run` (firmware/sl1fw/libExposure.py, lines 350-377).
Returns the pair `(step, etime)` selected for 0-based layer index `i`,
before the exposure compensation is added. -/
def layerParams (c : PrintConfig) (i : ℕ) : ℤ × ℚ :=
  if i = 0 then
    (c.layerMicroStepsFirst, c.expTimeFirst)
  else if i < 3 then
    (c.layerMicroSteps, c.expTimeFirst)
  else if i < c.fadeLayers + 3 then
    (c.layerMicroSteps,
      c.expTimeFirst - ((i : ℚ) - 2) * ((c.expTimeFirst - c.expTime) / (c.fadeLayers : ℚ)))
  else if i + 1 < c.slice2 then
    (c.layerMicroSteps, c.expTime)
  else if i + 1 < c.slice3 then
    (c.layerMicroSteps2, c.expTime2)
  else
    (c.layerMicroSteps3, c.expTime3)

/-- Step height selected for layer `i`. -/
def layerStep (c : PrintConfig) (i : ℕ) : ℤ := (layerParams c i).1

/-- Exposure time selected for layer `i`. -/
def layerEtime (c : PrintConfig) (i : ℕ) : ℚ := (layerParams c i).2

/-- Concrete configuration of the C1 scenario: `fadeLayers=10`,
`expTime=8.0`, `expTimeFirst=35.0`, other fields at the parsing defaults of
firmware/sl1fw/libConfig.py (`slice2=9999998`, `slice3=9999999`,
`expTime2=expTime`, `expTime3=expTime`). -/
def c1Config : PrintConfig :=
  { expTime := 8
    expTime2 := 8
    expTime3 := 8
    expTimeFirst := 35
    layerMicroSteps := 40
    layerMicroSteps2 := 40
    layerMicroSteps3 := 40
    layerMicroStepsFirst := 150
    fadeLayers := 10
    slice2 := 9999998
    slice3 := 9999999 }

/- ============================================================ -/
/- Tilt position setter (slafw/hardware/sl1/tilt.py, lines      -/
/- 99-106, TiltSL1.position)                                    -/
/- ============================================================ -/

/-- Abstract state of the tilt axis as seen through the motion controller:
the controller position register (`!tipo`/`?tipo`), the stored
`_target_position`, and whether the axis is currently moving
(`?mot` bit 1). -/
structure TiltAxisState where
  mcPosition : ℤ
  targetPosition : ℤ
  movingFlag : Bool
deriving DecidableEq

/-- Error raised by the tilt axis interface. -/
inductive TiltAxisError where
  | positionFailed
deriving DecidableEq

/-- Embeds the `TiltSL1.position` setter (slafw/hardware/sl1/tilt.py,
lines 99-106).  The Python code raises `TiltPositionFailed` before any
mutation when `self.moving` holds; otherwise it writes the controller
register and then updates `_target_position`.  The returned state is the
object/controller state after the call; on error it is unchanged because
the raise happens first. -/
def tiltSetPosition (s : TiltAxisState) (p : ℤ) : TiltAxisState × Option TiltAxisError :=
  if s.movingFlag then
    (s, some TiltAxisError.positionFailed)
  else
    ({ mcPosition := p, targetPosition := p, movingFlag := s.movingFlag }, none)

/- ============================================================ -/
/- Theorems for C1, C6, C7                                      -/
/- ============================================================ -/

/-- C7 helper: the round trip is exact, not merely within one microstep. -/
theorem roundtrip_exact (screwMm m : ℤ) (h : 0 < towerMicrostepSizeNm screwMm) :
    nmToTowerMicrosteps screwMm (towerMicrostepsToNm screwMm m) = m := by
  unfold nmToTowerMicrosteps towerMicrostepsToNm
  rw [mul_comm]
  exact Int.mul_fdiv_cancel m (by exact ne_of_gt h)

/-- C7: for every microstep count `m`, `to_microsteps(to_nm(m))` differs from
`m` by at most one microstep, where `to_nm` multiplies by
`tower_microstep_size_nm = (screwMm * 1000 * 1000) // (200 * 16)` and
`to_microsteps` divides by it with floor division.  The difference is in
fact zero whenever the microstep size is positive (e.g. for the default
`screwMm = 4`, size 1250 nm). -/
theorem c7_microstep_roundtrip (screwMm m : ℤ) (h : 0 < towerMicrostepSizeNm screwMm) :
    |nmToTowerMicrosteps screwMm (towerMicrostepsToNm screwMm m) - m| ≤ 1 := by
  rw [roundtrip_exact screwMm m h]
  simp

/-- C7 witness: concrete evaluation at `screwMm = 4` (default), `m = 12345`. -/
theorem c7_microstep_roundtrip_witness :
    (0 : ℤ) < towerMicrostepSizeNm 4 ∧
      |nmToTowerMicrosteps 4 (towerMicrostepsToNm 4 12345) - 12345| ≤ 1 :=
  ⟨by decide, c7_microstep_roundtrip 4 12345 (by decide)⟩

/-- C6: setting the tilt axis position while the axis is moving fails with
`TiltPositionFailed` and leaves both the controller position register and the
stored target position unmodified; when the axis is not moving the set
succeeds and updates both. -/
theorem c6_position_set_while_moving (s : TiltAxisState) (p : ℤ) :
    (s.movingFlag = true → tiltSetPosition s p = (s, some TiltAxisError.positionFailed)) ∧
    (s.movingFlag = false →
      tiltSetPosition s p =
        ({ mcPosition := p, targetPosition := p, movingFlag := false }, none)) := by
  constructor
  · intro h
    simp [tiltSetPosition, h]
  · intro h
    simp [tiltSetPosition, h]

/-- C6 witness: concrete moving and non-moving states. -/
theorem c6_position_set_while_moving_witness :
    tiltSetPosition ⟨5, 7, true⟩ 9 = (⟨5, 7, true⟩, some TiltAxisError.positionFailed) ∧
    tiltSetPosition ⟨5, 7, false⟩ 9 = (⟨9, 9, false⟩, none) :=
  ⟨(c6_position_set_while_moving ⟨5, 7, true⟩ 9).1 rfl,
   (c6_position_set_while_moving ⟨5, 7, false⟩ 9).2 rfl⟩

/-- C1 counterexample: with `fadeLayers=10`, `expTime=8.0`,
`expTimeFirst=35.0`, layer index 12 (the last fade layer) receives exposure
time `35 - 10 * ((35 - 8) / 10) = 8`, exactly `expTime`, which is not
strictly between `expTime` and `expTimeFirst` as the claim states. -/
theorem c1_layer12_not_strictly_between :
    layerEtime c1Config 12 = 8 ∧
      ¬ (8 < layerEtime c1Config 12 ∧ layerEtime c1Config 12 < 35) := by
  have h : layerEtime c1Config 12 = 8 := by
    simp only [layerEtime, layerParams, c1Config]
    norm_num
  refine ⟨h, ?_⟩
  rw [h]
  norm_num

/-- C1 amended: for every configuration with `fadeLayers=10`, `expTime=8`,
`expTimeFirst=35` and the breakpoints `slice2`, `slice3` beyond layer 13,
layer 0 gets `expTimeFirst` with the first-layer step height, layers 1-2 get
normal step height and still `expTimeFirst`, the fade layers 3 through 12
linearly interpolate from `expTimeFirst` down to `expTime` with layers 3-11
strictly between `expTime` and `expTimeFirst`, layer 12 (the last fade
layer) reaching exactly `expTime`, and layer 13 gets exactly `expTime`. -/
theorem c1_layer_bucketing_amended (c : PrintConfig)
    (hf : c.fadeLayers = 10) (he : c.expTime = 8) (hef : c.expTimeFirst = 35)
    (hs2 : 14 < c.slice2) :
    layerParams c 0 = (c.layerMicroStepsFirst, 35) ∧
    (∀ i, 1 ≤ i → i ≤ 2 → layerParams c i = (c.layerMicroSteps, 35)) ∧
    (∀ i, 3 ≤ i → i ≤ 12 →
      layerParams c i = (c.layerMicroSteps, 35 - ((i : ℚ) - 2) * (27 / 10))) ∧
    (∀ i, 3 ≤ i → i ≤ 11 → 8 < layerEtime c i ∧ layerEtime c i < 35) ∧
    layerEtime c 12 = 8 ∧
    layerParams c 13 = (c.layerMicroSteps, 8) := by
  have hfq : (c.fadeLayers : ℚ) = 10 := by rw [hf]; norm_num
  refine ⟨?_, ?_, ?_, ?_, ?_, ?_⟩
  · simp [layerParams, hef]
  · intro i h1 h2
    interval_cases i <;> simp [layerParams, hef]
  · intro i h3 h12
    have hi0 : i ≠ 0 := by omega
    have hi3 : ¬ i < 3 := by omega
    have hif : i < c.fadeLayers + 3 := by omega
    simp only [layerParams, hi0, if_false, hi3, hif, if_true]
    rw [he, hef, hfq]
    norm_num
  · intro i h3 h11
    have hi0 : i ≠ 0 := by omega
    have hi3 : ¬ i < 3 := by omega
    have hif : i < c.fadeLayers + 3 := by omega
    simp only [layerEtime, layerParams, hi0, if_false, hi3, hif, if_true]
    rw [he, hef, hfq]
    have hiq3 : (3 : ℚ) ≤ (i : ℚ) := by exact_mod_cast h3
    have hiq11 : (i : ℚ) ≤ 11 := by exact_mod_cast h11
    constructor <;> nlinarith
  · have hi0 : (12 : ℕ) ≠ 0 := by omega
    have hi3 : ¬ (12 : ℕ) < 3 := by omega
    have hif : (12 : ℕ) < c.fadeLayers + 3 := by omega
    simp only [layerEtime, layerParams, hi0, if_false, hi3, hif, if_true]
    rw [he, hef, hfq]
    norm_num
  · have hi0 : (13 : ℕ) ≠ 0 := by omega
    have hi3 : ¬ (13 : ℕ) < 3 := by omega
    have hif : ¬ (13 : ℕ) < c.fadeLayers + 3 := by omega
    have hsl : 13 + 1 < c.slice2 := hs2
    simp only [layerParams, hi0, if_false, hi3, hif, hsl, if_true]
    rw [he]

/-- C1 amended witness: the amended bucketing evaluated on the concrete
configuration of the scenario. -/
theorem c1_layer_bucketing_amended_witness :
    layerParams c1Config 0 = (c1Config.layerMicroStepsFirst, 35) ∧
    layerEtime c1Config 3 = 323 / 10 ∧
    layerEtime c1Config 12 = 8 ∧
    layerParams c1Config 13 = (c1Config.layerMicroSteps, 8) := by
  have h := c1_layer_bucketing_amended c1Config rfl rfl rfl (by decide)
  refine ⟨h.1, ?_, h.2.2.2.2.1, h.2.2.2.2.2⟩
  have h3 := h.2.2.1 3 (by omega) (by omega)
  simp only [layerEtime, h3]
  norm_num

/- ============================================================ -/
/- Homing retry policy                                          -/
/- (firmware/sl1fw/pages/towersensitivity.py, lines 38-64)      -/
/- ============================================================ -/

/-- Outcome of the tower-sensitivity homing loop of
`PageTowerSensitivity.contButtonRelease`. -/
inductive HomingOutcome where
  | ok (sens : ℕ)
  | endstopNotReached
  | homeCheckFailed
  | outOfStatuses
deriving DecidableEq

/-- Embeds the retry loop of `PageTowerSensitivity.contButtonRelease`
(firmware/sl1fw/pages/towersensitivity.py, lines 40-64).  Each iteration of
the Python `while tries > 0` loop performs one homing
(`towerSyncWait`) and reads one terminal homing status, modelled here as
consuming the head of `statuses`.  Status `-2` returns the endstop error
page at once; status `-3` increments the sensitivity, resets `tries` to 3
and errors out when the new sensitivity reaches
`len(towerAdjust[homingFast]) - 2` (the parameter `tableLen` is that table
length); any other status decrements `tries`.  Returns the outcome together
with the statuses not consumed. -/
def towerSensitivityLoop (tableLen : ℕ) (statuses : List ℤ) (sens tries : ℕ) :
    HomingOutcome × List ℤ :=
  if tries = 0 then (HomingOutcome.ok sens, statuses)
  else
    match statuses with
    | [] => (HomingOutcome.outOfStatuses, [])
    | st :: rest =>
      if st = -2 then (HomingOutcome.endstopNotReached, rest)
      else if st = -3 then
        if tableLen - 2 ≤ sens + 1 then (HomingOutcome.homeCheckFailed, rest)
        else towerSensitivityLoop tableLen rest (sens + 1) 3
      else towerSensitivityLoop tableLen rest sens (tries - 1)

/-- Helper for C3: with every homing attempt reporting `-3`, the loop
raises the home-check failure after consuming exactly `j` statuses, where
`j` is the remaining sensitivity budget. -/
theorem towerSensitivityLoop_allStall (tableLen : ℕ) :
    ∀ j sens k, 1 ≤ j → sens + j = tableLen - 2 → j ≤ k →
      towerSensitivityLoop tableLen (List.replicate k (-3)) sens 3 =
        (HomingOutcome.homeCheckFailed, List.replicate (k - j) ((-3 : ℤ))) := by
  intro j
  induction j with
  | zero => intro sens k h1 _ _; omega
  | succ n ih =>
    intro sens k _ hsum hk
    obtain ⟨k1, rfl⟩ : ∃ k1, k = k1 + 1 := ⟨k - 1, by omega⟩
    rw [List.replicate_succ, towerSensitivityLoop]
    simp only [if_neg (by norm_num : ¬ (3 : ℕ) = 0),
      if_neg (by norm_num : ¬ (-3 : ℤ) = -2), if_pos rfl]
    by_cases hn : n = 0
    · subst hn
      rw [if_pos (by omega : tableLen - 2 ≤ sens + 1)]
      have hkk : k1 + 1 - 1 = k1 := by omega
      rw [hkk]
      simp
    · rw [if_neg (by omega : ¬ tableLen - 2 ≤ sens + 1)]
      have hres := ih (sens + 1) k1 (by omega) (by omega) (by omega)
      rw [hres]
      have hkk : k1 - n = k1 + 1 - (n + 1) := by omega
      rw [hkk]
      simp

/-- C3: if every homing attempt reports status `-3` (stall during homing),
the sensitivity-adjustment loop raises the fatal home-check failure after
consuming exactly `tableLen - 2` homing attempts (the bounded number of
sensitivity steps allowed by the `towerAdjust[homingFast]` profile table of
length `tableLen`, 5 in the firmware), incrementing the sensitivity and
restarting the attempt counter at each stall — it never retries
unboundedly; and a status of `-2` (endstop never reached) fails immediately
on the first attempt, consuming one status and without any sensitivity
retry. -/
theorem c3_homing_retry_bound (tableLen k : ℕ) (h3 : 3 ≤ tableLen)
    (hk : tableLen - 2 ≤ k) :
    towerSensitivityLoop tableLen (List.replicate k (-3)) 0 3 =
      (HomingOutcome.homeCheckFailed, List.replicate (k - (tableLen - 2)) ((-3 : ℤ))) ∧
    (∀ rest : List ℤ, towerSensitivityLoop tableLen (-2 :: rest) 0 3 =
      (HomingOutcome.endstopNotReached, rest)) := by
  constructor
  · exact towerSensitivityLoop_allStall tableLen (tableLen - 2) 0 k (by omega) (by omega) hk
  · intro rest
    rw [towerSensitivityLoop]
    simp

/-- C3 witness: the firmware table has 5 entries, so homing fails fatally
after exactly 3 stalled attempts; a `-2` fails at once. -/
theorem c3_homing_retry_bound_witness :
    towerSensitivityLoop 5 (List.replicate 3 (-3)) 0 3 =
      (HomingOutcome.homeCheckFailed, []) ∧
    towerSensitivityLoop 5 [-2, 0] 0 3 = (HomingOutcome.endstopNotReached, [0]) := by
  have h := c3_homing_retry_bound 5 3 (by omega) (by omega)
  constructor
  · have := h.1
    simpa using this
  · simpa using h.2 [0]

/- ============================================================ -/
/- ProfileSet construction (slafw/hardware/base/profiles.py,    -/
/- ProfileSet.__init__, lines 71-97)                            -/
/- ============================================================ -/

/-- Embeds one field of a `SingleProfile`: the configuration key and the
value resolved by `value.value_getter(profile)`, which is `None` when the
field has no value. -/
structure RawField where
  key : String
  value : Option ℤ
deriving DecidableEq

/-- Embeds the raw data behind one `SingleProfile` as loaded from the
factory/default JSON files, in definition order. -/
structure RawProfile where
  fields : List RawField
deriving DecidableEq

/-- Embeds `ConfigException` raised by `ProfileSet.__init__`. -/
inductive ConfigError where
  | missingProfile (pname : String)
  | missingValue (vkey pname : String)
deriving DecidableEq

/-- A profile after successful `ProfileSet.__init__`: `name` and `idx`
have been assigned. -/
structure InitializedProfile where
  pname : String
  idx : ℕ
  fields : List RawField
deriving DecidableEq

/-- Mirrors the `name.startswith` underscore filter used when iterating
`__definition_order__` in `ProfileSet.__init__` and `__iter__`: a name is
skipped when its first character is an underscore. -/
def isVisibleName (s : String) : Bool :=
  match s.data with
  | [] => true
  | c :: _ => ! (c == '_')

/-- A raw profile is complete when every field has a value. -/
def profileComplete (p : RawProfile) : Bool :=
  p.fields.all (fun f => f.value.isSome)

/-- Embeds the initialization loop of `ProfileSet.__init__`
(slafw/hardware/base/profiles.py, lines 85-97): walk the definition order,
skip names starting with an underscore, raise `ConfigException` on a
missing profile or on the first field whose value getter yields `None`,
otherwise assign `name` and a running `idx` to each profile. -/
def initProfiles :
    List (String × Option RawProfile) → ℕ →
      Except ConfigError (List InitializedProfile)
  | [], _ => Except.ok []
  | (n, op) :: rest, idx =>
    if isVisibleName n then
      match op with
      | none => Except.error (ConfigError.missingProfile n)
      | some p =>
        match p.fields.find? (fun f => f.value.isNone) with
        | some f => Except.error (ConfigError.missingValue f.key n)
        | none =>
          match initProfiles rest (idx + 1) with
          | Except.error e => Except.error e
          | Except.ok l => Except.ok (⟨n, idx, p.fields⟩ :: l)
    else
      initProfiles rest idx

/-- Helper: the first-missing-field search fails exactly on complete
profiles. -/
theorem find_missing_none (p : RawProfile) :
    p.fields.find? (fun f => f.value.isNone) = none ↔ profileComplete p = true := by
  rw [List.find?_eq_none]
  simp [profileComplete, List.all_eq_true, Option.isSome_iff_ne_none]

/-- Helper: `initProfiles` succeeds exactly when every visible entry has a
present and complete profile. -/
theorem initProfiles_ok_iff (entries : List (String × Option RawProfile)) :
    ∀ idx0, (∃ l, initProfiles entries idx0 = Except.ok l) ↔
      ∀ e ∈ entries, isVisibleName e.1 = true →
        ∃ p, e.2 = some p ∧ profileComplete p = true := by
  induction entries with
  | nil => intro idx0; simp [initProfiles]
  | cons e rest ih =>
    intro idx0
    obtain ⟨n, op⟩ := e
    by_cases hv : isVisibleName n
    · cases op with
      | none => simp [initProfiles, hv]
      | some p =>
        rcases hfind : p.fields.find? (fun f => f.value.isNone) with _ | f
        · have hc : profileComplete p = true := (find_missing_none p).1 hfind
          rcases hres : initProfiles rest (idx0 + 1) with e' | l'
          · simp only [initProfiles, hv, if_pos, hfind, hres]
            constructor
            · rintro ⟨l, hl⟩
              exact absurd hl (by simp)
            · intro hall
              exfalso
              have hok : ∃ l, initProfiles rest (idx0 + 1) = Except.ok l :=
                (ih (idx0 + 1)).2 (fun x hx => hall x (List.mem_cons_of_mem _ hx))
              rcases hok with ⟨l, hl⟩
              rw [hres] at hl
              exact Except.noConfusion hl
          · simp only [initProfiles, hv, if_pos, hfind, hres]
            constructor
            · intro _
              intro x hx
              rcases List.mem_cons.1 hx with hxe | hxr
              · subst hxe; intro _; exact ⟨p, rfl, hc⟩
              · exact ((ih (idx0 + 1)).1 ⟨l', hres⟩) x hxr
            · intro _; exact ⟨_, rfl⟩
        · have hc : profileComplete p = false := by
            by_contra hcc
            have : profileComplete p = true := by
              cases hpc : profileComplete p
              · exact absurd hpc hcc
              · rfl
            rw [← find_missing_none] at this
            rw [this] at hfind
            exact Option.noConfusion hfind
          simp only [initProfiles, hv, if_pos, hfind]
          constructor
          · rintro ⟨l, hl⟩; exact absurd hl (by simp)
          · intro hall
            exfalso
            rcases hall (n, some p) (List.mem_cons_self _ _) hv with ⟨p', hp', hcomp⟩
            simp only [Option.some_inj] at hp'
            subst hp'
            rw [hcomp] at hc
            exact Bool.noConfusion hc
    · simp only [initProfiles]
      rw [if_neg hv]
      rw [ih idx0]
      constructor
      · intro hall x hx
        rcases List.mem_cons.1 hx with hxe | hxr
        · subst hxe
          intro hvx
          exact absurd hvx (by simpa using hv)
        · exact hall x hxr
      · intro hall x hx
        exact hall x (List.mem_cons_of_mem _ hx)

/-- Helper: on success, profiles carry their definition names in order
and consecutive indices starting at the initial index. -/
theorem initProfiles_ok_spec (entries : List (String × Option RawProfile)) :
    ∀ idx0 l, initProfiles entries idx0 = Except.ok l →
      List.map InitializedProfile.idx l = List.range' idx0 l.length ∧
      List.map InitializedProfile.pname l =
        List.map Prod.fst (List.filter (fun e => isVisibleName e.1) entries) := by
  induction entries with
  | nil =>
    intro idx0 l h
    simp only [initProfiles] at h
    cases h
    simp
  | cons e rest ih =>
    intro idx0 l h
    obtain ⟨n, op⟩ := e
    by_cases hv : isVisibleName n
    · cases op with
      | none => simp [initProfiles, hv] at h
      | some p =>
        rcases hfind : p.fields.find? (fun f => f.value.isNone) with _ | f
        · rcases hres : initProfiles rest (idx0 + 1) with e' | l'
          · simp [initProfiles, hv, hfind, hres] at h
          · simp only [initProfiles, hv, if_pos, hfind, hres] at h
            cases h
            obtain ⟨hidx, hnames⟩ := ih (idx0 + 1) l' hres
            constructor
            · simp only [List.map_cons, List.length_cons, List.range'_succ, hidx]
            · simp only [List.map_cons, List.filter_cons, hv, if_pos, hnames]
        · simp [initProfiles, hv, hfind] at h
    · simp only [initProfiles] at h
      rw [if_neg hv] at h
      obtain ⟨hidx, hnames⟩ := ih idx0 l h
      refine ⟨hidx, ?_⟩
      rw [hnames]
      simp only [List.filter_cons]
      rw [if_neg (by simpa using hv)]

/-- C8: constructing a `ProfileSet` fails with a `ConfigException` if any
contained (visible) profile is missing or any of its fields has no value —
so incomplete profile data raises at load time, when the set is
constructed, before it can be used by a print; on successful construction
every profile has its name set to its definition name and a stable index
assigned in definition order (0, 1, 2, ...). -/
theorem c8_profileset_init (entries : List (String × Option RawProfile)) :
    ((∃ e ∈ entries, isVisibleName e.1 = true ∧
        ¬ ∃ p, e.2 = some p ∧ profileComplete p = true) →
      ∃ err, initProfiles entries 0 = Except.error err) ∧
    ((∀ e ∈ entries, isVisibleName e.1 = true →
        ∃ p, e.2 = some p ∧ profileComplete p = true) →
      ∃ l, initProfiles entries 0 = Except.ok l) ∧
    (∀ l, initProfiles entries 0 = Except.ok l →
      List.map InitializedProfile.idx l = List.range l.length ∧
      List.map InitializedProfile.pname l =
        List.map Prod.fst (List.filter (fun e => isVisibleName e.1) entries)) := by
  refine ⟨?_, ?_, ?_⟩
  · rintro ⟨e, he, hvis, hbad⟩
    rcases hcase : initProfiles entries 0 with err | l
    · exact ⟨err, rfl⟩
    · exfalso
      have hall := (initProfiles_ok_iff entries 0).1 ⟨l, hcase⟩
      exact hbad (hall e he hvis)
  · intro hall
    exact (initProfiles_ok_iff entries 0).2 hall
  · intro l h
    have hspec := initProfiles_ok_spec entries 0 l h
    simp only [List.range'_eq_map_range, Nat.zero_add] at hspec
    simpa using hspec

/-- Entries for C8 with one visible profile whose only field has no value. -/
def c8BadEntries : List (String × Option RawProfile) :=
  [("homingFast", some ⟨[⟨"starting_steprate", none⟩]⟩)]

/-- Entries for C8 mirroring a small profile set: two visible complete
profiles around one private (underscored) name. -/
def c8GoodEntries : List (String × Option RawProfile) :=
  [("tiltDownLargeFill", some ⟨[⟨"tilt_cycles", some 3⟩]⟩),
   ("_order", none),
   ("tiltDownSmallFill", some ⟨[⟨"tilt_cycles", some 1⟩]⟩)]

/-- Expected initialization result for the good entries. -/
def c8GoodResult : List InitializedProfile :=
  [⟨"tiltDownLargeFill", 0, [⟨"tilt_cycles", some 3⟩]⟩,
   ⟨"tiltDownSmallFill", 1, [⟨"tilt_cycles", some 1⟩]⟩]

/-- C8 witness: the incomplete set raises, the complete set constructs with
names and definition-order indices assigned. -/
theorem c8_profileset_init_witness :
    (∃ err, initProfiles c8BadEntries 0 = Except.error err) ∧
    List.map InitializedProfile.idx c8GoodResult = List.range c8GoodResult.length ∧
    List.map InitializedProfile.pname c8GoodResult =
      List.map Prod.fst (List.filter (fun e => isVisibleName e.1) c8GoodEntries) := by
  refine ⟨?_, ?_⟩
  · apply (c8_profileset_init c8BadEntries).1
    refine ⟨("homingFast", some ⟨[⟨"starting_steprate", none⟩]⟩), ?_, ?_, ?_⟩
    · simp [c8BadEntries]
    · decide
    · rintro ⟨p, hp, hc⟩
      simp only [Option.some_inj] at hp
      subst hp
      simp [profileComplete] at hc
  · have hres := (c8_profileset_init c8GoodEntries).2.2 c8GoodResult (by rfl)
    simpa using hres

/- ============================================================ -/
/- Tilt tear-off choreography (slafw/hardware/sl1/tilt.py,      -/
/- layer_down_wait_async lines 137-176, layer_up_wait 178-199)  -/
/- ============================================================ -/

/-- Embeds `SingleTuneTiltSL1` (slafw/hardware/sl1/tilt.py, lines 41-51):
the tune/tear-off parameters of one tilt profile. -/
structure TuneTiltProfile where
  initProfile : ℕ
  offsetSteps : ℤ
  offsetDelayMs : ℕ
  finishProfile : ℕ
  tiltCycles : ℕ
  tiltDelayMs : ℕ
  homingTolerance : ℤ
  homingCycles : ℕ
deriving DecidableEq

/-- Declared minimum of the `tilt_cycles` field
(`IntValue(minimum=0, maximum=10, ...)`, slafw/hardware/sl1/tilt.py,
line 46). -/
def tiltCyclesMinimum : ℕ := 0

/-- Declared maximum of the `tilt_cycles` field. -/
def tiltCyclesMaximum : ℕ := 10

/-- A `tilt_cycles` value accepted by the declared field bounds. -/
def tiltCyclesInBounds (v : ℕ) : Prop :=
  tiltCyclesMinimum ≤ v ∧ v ≤ tiltCyclesMaximum

/-- Value of `defines.tiltHomingTolerance` (firmware/sl1fw/defines.py,
line 69). -/
def tiltHomingTolerance : ℤ := 30

/-- Profile slot index of `layerRelease` in `MovingProfilesTiltSL1`
definition order (slafw/hardware/sl1/tilt.py, lines 30-38): homingFast=0,
homingSlow=1, moveFast=2, moveSlow=3, layerMoveSlow=4, layerRelease=5. -/
def layerReleaseSlot : ℕ := 5

/-- Environment oracle for the tilt hardware: `resolveMove n t` is the
position register value once the n-th issued move towards target `t` has
stopped (the move may be cut short by the endstop or by stallguard), and
`endstop p` is the endstop input as sampled with the position register at
`p`. -/
structure TiltEnv where
  resolveMove : ℕ → ℤ → ℤ
  endstop : ℤ → Bool

/-- Tilt hardware state visible to the choreography: controller position
register and the count of move commands issued so far. -/
structure TiltHw where
  pos : ℤ
  moveIdx : ℕ
deriving DecidableEq

/-- Externally visible effects of the tear-off routines. -/
inductive TiltEff where
  | applyProfile (slot : ℕ)
  | moveCmd (target : ℤ)
  | writePos (p : ℤ)
  | homeCall (retries : ℕ)
deriving DecidableEq

/-- Errors the embedded routines can raise.  Python raises
`ZeroDivisionError` on integer floor division by zero. -/
inductive PyErr where
  | zeroDivision
deriving DecidableEq

/-- One `self.move(target)` followed by the `while self.moving` wait:
the settled position comes from the environment oracle. -/
def doMoveWait (env : TiltEnv) (s : TiltHw) (target : ℤ) : TiltHw × TiltEff :=
  (⟨env.resolveMove s.moveIdx target, s.moveIdx + 1⟩, TiltEff.moveCmd target)

/-- The tear-off sub-move loop (slafw/hardware/sl1/tilt.py, lines 150-154):
`tilt_cycles` times, move down by `movePerCycle` from the current position
and wait, with the configured delay after each sub-move. -/
def tiltDownCycles (env : TiltEnv) (s : TiltHw) (movePerCycle : ℤ) :
    ℕ → TiltHw × List TiltEff
  | 0 => (s, [])
  | n + 1 =>
    let r := doMoveWait env s (s.pos - movePerCycle)
    let rest := tiltDownCycles env r.1 movePerCycle n
    (rest.1, r.2 :: rest.2)

/-- The layer-up sub-move loop (slafw/hardware/sl1/tilt.py,
lines 195-199). -/
def tiltUpCycles (env : TiltEnv) (s : TiltHw) (movePerCycle : ℤ) :
    ℕ → TiltHw × List TiltEff
  | 0 => (s, [])
  | n + 1 =>
    let r := doMoveWait env s (s.pos + movePerCycle)
    let rest := tiltUpCycles env r.1 movePerCycle n
    (rest.1, r.2 :: rest.2)

/-- Embeds lines 140-154 of `TiltSL1.layer_down_wait_async`: initial
profile, optional offset move with delay, finish profile, then the
remaining distance split into `tilt_cycles` equal sub-moves.  Division by
`tilt_cycles` is a Python integer floor division and raises
`ZeroDivisionError` when `tilt_cycles = 0`. -/
def layerDownPhase1 (env : TiltEnv) (p : TuneTiltProfile) (s0 : TiltHw) :
    Except PyErr (TiltHw × List TiltEff) :=
  let start :=
    if 0 < p.offsetSteps then
      let r := doMoveWait env s0 (s0.pos - p.offsetSteps)
      (r.1, [TiltEff.applyProfile p.initProfile, r.2])
    else (s0, [TiltEff.applyProfile p.initProfile])
  let s1 := start.1
  let effs1 := start.2 ++ [TiltEff.applyProfile p.finishProfile]
  if p.tiltCycles = 0 then
    Except.error PyErr.zeroDivision
  else
    let movePerCycle := Int.fdiv s1.pos (p.tiltCycles : ℤ)
    let r := tiltDownCycles env s1 movePerCycle p.tiltCycles
    Except.ok (r.1, effs1 ++ r.2)

/-- The unstuck recovery loop (slafw/hardware/sl1/tilt.py, lines 168-175):
while the travelled budget is below `tiltMax` and the endstop has not
triggered, rewrite the position register to 128 usteps, move to the home
position (0) and wait, then add 128 to the budget. -/
def unstuckLoop (env : TiltEnv) (tiltMax : ℤ) (s : TiltHw) (count : ℤ) :
    TiltHw × List TiltEff :=
  if h : count < tiltMax ∧ env.endstop s.pos = false then
    let s1 : TiltHw := ⟨128, s.moveIdx⟩
    let r := doMoveWait env s1 0
    let rest := unstuckLoop env tiltMax r.1 (count + 128)
    (rest.1, TiltEff.writePos 128 :: r.2 :: rest.2)
  else (s, [])
termination_by (tiltMax - count).toNat
decreasing_by
  obtain ⟨h1, -⟩ := h
  omega

/-- Embeds lines 155-176 of `TiltSL1.layer_down_wait_async`: if the endstop
has not triggered, one extra move towards `-tolerance`; then, when the
endstop is triggered and the position is within `[-tolerance, +tolerance]`,
return; otherwise run the unstuck recovery (release profile, unstuck loop,
re-home with zero retries). -/
def layerDownFinish (env : TiltEnv) (tiltMax : ℤ) (s : TiltHw) :
    TiltHw × List TiltEff :=
  let tol := tiltHomingTolerance
  let extra :=
    if env.endstop s.pos = false then
      let r := doMoveWait env s (-tol)
      (r.1, [r.2])
    else (s, ([] : List TiltEff))
  let s4 := extra.1
  if env.endstop s4.pos = true ∧ -tol ≤ s4.pos ∧ s4.pos ≤ tol then
    (s4, extra.2)
  else
    let r := unstuckLoop env tiltMax s4 0
    (r.1, extra.2 ++ TiltEff.applyProfile layerReleaseSlot :: r.2 ++ [TiltEff.homeCall 0])

/-- Embeds `TiltSL1.layer_down_wait_async` (slafw/hardware/sl1/tilt.py,
lines 137-176) as the composition of the sub-move phase and the
finishing/unstuck phase. -/
def layerDownWait (env : TiltEnv) (tiltMax : ℤ) (p : TuneTiltProfile) (s0 : TiltHw) :
    Except PyErr (TiltHw × List TiltEff) :=
  match layerDownPhase1 env p s0 with
  | Except.error e => Except.error e
  | Except.ok (s1, effs) =>
    let r := layerDownFinish env tiltMax s1
    Except.ok (r.1, effs ++ r.2)

/-- Embeds `TiltSL1.layer_up_wait` (slafw/hardware/sl1/tilt.py,
lines 178-199): resolve the target height (the configured tilt height when
called with the default 0), initial profile, move to target minus offset,
delay, finish profile, then the remaining distance split into
`tilt_cycles` sub-moves; the division again raises `ZeroDivisionError`
when `tilt_cycles = 0`. -/
def layerUpWait (env : TiltEnv) (cfgTiltHeight : ℤ) (p : TuneTiltProfile)
    (tiltHeight : ℤ) (s0 : TiltHw) : Except PyErr (TiltHw × List TiltEff) :=
  let target := if tiltHeight = 0 then cfgTiltHeight else tiltHeight
  let r1 := doMoveWait env s0 (target - p.offsetSteps)
  let s1 := r1.1
  if p.tiltCycles = 0 then
    Except.error PyErr.zeroDivision
  else
    let movePerCycle := Int.fdiv (target - s1.pos) (p.tiltCycles : ℤ)
    let r := tiltUpCycles env s1 movePerCycle p.tiltCycles
    Except.ok
      (r.1,
        TiltEff.applyProfile p.initProfile :: r1.2 ::
          TiltEff.applyProfile p.finishProfile :: r.2)

/-- Helper for C4: when the endstop is triggered and the position is within
tolerance after the sub-moves, the finishing phase performs no effect at
all and leaves the state untouched. -/
theorem layerDownFinish_within (env : TiltEnv) (tiltMax : ℤ) (s : TiltHw)
    (hend : env.endstop s.pos = true)
    (hlo : -tiltHomingTolerance ≤ s.pos) (hhi : s.pos ≤ tiltHomingTolerance) :
    layerDownFinish env tiltMax s = (s, []) := by
  unfold layerDownFinish
  simp [hend, hlo, hhi]

/-- C4: for every tear-off execution whose sub-move phase ends with the
tilt endstop triggered and the position register within
`[-tolerance, +tolerance]` of home, the routine returns right after the
tolerance check: the unstuck sub-routine is not executed — no
release-profile switch, no extra move command and no re-home call are
emitted after the sub-moves. -/
theorem c4_no_unstuck_when_within_tolerance (env : TiltEnv) (tiltMax : ℤ)
    (p : TuneTiltProfile) (s0 s1 : TiltHw) (effs : List TiltEff)
    (h1 : layerDownPhase1 env p s0 = Except.ok (s1, effs))
    (hend : env.endstop s1.pos = true)
    (hlo : -tiltHomingTolerance ≤ s1.pos) (hhi : s1.pos ≤ tiltHomingTolerance) :
    layerDownWait env tiltMax p s0 = Except.ok (s1, effs) := by
  unfold layerDownWait
  rw [h1]
  show Except.ok ((layerDownFinish env tiltMax s1).1,
    effs ++ (layerDownFinish env tiltMax s1).2) = Except.ok (s1, effs)
  rw [layerDownFinish_within env tiltMax s1 hend hlo hhi]
  simp

/-- Idealized environment used by concrete witnesses: every move settles at
its target and the endstop is triggered at positions at most 30 usteps. -/
def idealEnv : TiltEnv :=
  ⟨fun _ t => t, fun q => decide (q ≤ 30)⟩

/-- Tune profile for the C4 witness: offset 650 usteps, 3 tear-off
cycles. -/
def c4Profile : TuneTiltProfile := ⟨0, 650, 0, 4, 3, 0, 30, 1⟩

/-- C4 witness: a concrete tear-off from 4650 usteps whose sub-moves end
at position 1 on the endstop performs exactly the sub-move effects and
nothing more. -/
theorem c4_no_unstuck_when_within_tolerance_witness :
    layerDownWait idealEnv 1600 c4Profile ⟨4650, 0⟩ =
      Except.ok (⟨1, 4⟩,
        [TiltEff.applyProfile 0, TiltEff.moveCmd 4000, TiltEff.applyProfile 4,
         TiltEff.moveCmd 2667, TiltEff.moveCmd 1334, TiltEff.moveCmd 1]) := by
  have h1 : layerDownPhase1 idealEnv c4Profile ⟨4650, 0⟩ =
      Except.ok (⟨1, 4⟩,
        [TiltEff.applyProfile 0, TiltEff.moveCmd 4000, TiltEff.applyProfile 4,
         TiltEff.moveCmd 2667, TiltEff.moveCmd 1334, TiltEff.moveCmd 1]) := by
    rfl
  exact c4_no_unstuck_when_within_tolerance idealEnv 1600 c4Profile ⟨4650, 0⟩ ⟨1, 4⟩ _
    h1 (by rfl) (by decide) (by decide)

/-- C9: the declared bounds of `tilt_cycles` admit 0 (`minimum=0`), yet both
tear-off (`layer_down_wait_async`) and layer-up (`layer_up_wait`) divide by
`tilt_cycles` without a zero guard: with `tilt_cycles = 0` both routines
raise `ZeroDivisionError` instead of performing zero sub-moves, and with
`tilt_cycles ≥ 1` both always complete without that error — the routines
are total only under the precondition `tilt_cycles ≥ 1`. -/
theorem c9_tilt_cycles_zero_division (p : TuneTiltProfile) :
    tiltCyclesInBounds 0 ∧
    (p.tiltCycles = 0 → ∀ env tiltMax s0,
      layerDownWait env tiltMax p s0 = Except.error PyErr.zeroDivision) ∧
    (p.tiltCycles = 0 → ∀ env cfgH th s0,
      layerUpWait env cfgH p th s0 = Except.error PyErr.zeroDivision) ∧
    (1 ≤ p.tiltCycles → ∀ env tiltMax s0,
      ∃ r, layerDownWait env tiltMax p s0 = Except.ok r) ∧
    (1 ≤ p.tiltCycles → ∀ env cfgH th s0,
      ∃ r, layerUpWait env cfgH p th s0 = Except.ok r) := by
  refine ⟨⟨Nat.zero_le 0, by norm_num [tiltCyclesMaximum]⟩, ?_, ?_, ?_, ?_⟩
  · intro h env tiltMax s0
    unfold layerDownWait layerDownPhase1
    rw [if_pos h]
  · intro h env cfgH th s0
    unfold layerUpWait
    rw [if_pos h]
  · intro h env tiltMax s0
    have hne : p.tiltCycles ≠ 0 := by omega
    unfold layerDownWait layerDownPhase1
    rw [if_neg hne]
    exact ⟨_, rfl⟩
  · intro h env cfgH th s0
    have hne : p.tiltCycles ≠ 0 := by omega
    unfold layerUpWait
    rw [if_neg hne]
    exact ⟨_, rfl⟩

/-- Tune profile with `tilt_cycles = 0` for the C9 witness. -/
def c9ZeroProfile : TuneTiltProfile := ⟨0, 0, 0, 4, 0, 0, 30, 0⟩

/-- Tune profile with `tilt_cycles = 1` for the C9 witness. -/
def c9OneProfile : TuneTiltProfile := ⟨0, 0, 0, 4, 1, 0, 30, 1⟩

/-- C9 witness: concrete zero-cycle profiles raise the division error in
both routines; one-cycle profiles complete. -/
theorem c9_tilt_cycles_zero_division_witness :
    layerDownWait idealEnv 1600 c9ZeroProfile ⟨4800, 0⟩ =
      Except.error PyErr.zeroDivision ∧
    layerUpWait idealEnv 4928 c9ZeroProfile 0 ⟨0, 0⟩ =
      Except.error PyErr.zeroDivision ∧
    (∃ r, layerDownWait idealEnv 1600 c9OneProfile ⟨4800, 0⟩ = Except.ok r) ∧
    (∃ r, layerUpWait idealEnv 4928 c9OneProfile 0 ⟨0, 0⟩ = Except.ok r) :=
  ⟨(c9_tilt_cycles_zero_division c9ZeroProfile).2.1 rfl idealEnv 1600 ⟨4800, 0⟩,
   (c9_tilt_cycles_zero_division c9ZeroProfile).2.2.1 rfl idealEnv 4928 0 ⟨0, 0⟩,
   (c9_tilt_cycles_zero_division c9OneProfile).2.2.2.1 (by decide) idealEnv 1600 ⟨4800, 0⟩,
   (c9_tilt_cycles_zero_division c9OneProfile).2.2.2.2 (by decide) idealEnv 4928 0 ⟨0, 0⟩⟩

/- ============================================================ -/
/- Exposure engine loop (firmware/sl1fw/libExposure.py,         -/
/- ExposureThread.run lines 265-487, doWait lines 199-223,      -/
/- doStuckRelease lines 226-262, doUpAndDown lines 150-196)     -/
/- ============================================================ -/

/-- Command tokens of the inter-thread queue
(firmware/sl1fw/libExposure.py, `Exposure.do*` producers). -/
inductive Cmd where
  | pause
  | continueTok
  | exitTok
  | updown
  | feedme
  | feedmeByButton
  | back
deriving DecidableEq

/-- Python half-to-even rounding of a rational to an integer, as used by
the built-in `round`. -/
def roundHalfEven (x : ℚ) : ℤ :=
  let f := ⌊x⌋
  let frac := x - (f : ℚ)
  if frac < 1/2 then f
  else if 1/2 < frac then f + 1
  else if f % 2 = 0 then f else f + 1

/-- Embeds `HwConfig.calcMM` (firmware/sl1fw/libConfig.py, lines 374-376):
`round(microSteps / microStepsMM, 3)` with
`microStepsMM = 200 * 16 / screwMm` (line 304), the Python float
computation taken at exact rational values. -/
def calcMM (screwMm : ℚ) (microSteps : ℤ) : ℚ :=
  (roundHalfEven ((microSteps : ℚ) / (200 * 16 / screwMm) * 1000) : ℚ) / 1000

/-- The hardware-configuration and project-session flags consumed by the
run loop: `blinkExposure`, `tilt`, `upAndDownEveryLayer`,
`upAndDownExpoComp` (tenths of a second), `upAndDownZoffset` (usteps),
`whitePixelsThd` (firmware/sl1fw/libConfig.py line 320), `screwMm`, and
the session flag `perPartes`.  The field `screenPixelSize` is modelled
from the spec: `defines.screenPixelSize` is referenced by
libExposure.py line 432 but its defining assignment is not among the
sources; the spec calls its square `pixel_area_mm2`. -/
structure SlHwConfig where
  blinkExposure : Bool
  tilt : Bool
  perPartes : Bool
  upAndDownEveryLayer : ℕ
  upAndDownExpoComp : ℤ
  upAndDownZoffset : ℤ
  whitePixelsThd : ℚ
  screwMm : ℚ
  screenPixelSize : ℚ
deriving DecidableEq

/-- Environment oracles of one print: per layer index and per doFrame
invocation (`second` selects the per-partes second half), the rendered
white-pixel count, whether `tiltLayerDownWait` succeeded, and whether the
re-homing inside `doStuckRelease` succeeded. -/
structure RunEnv where
  whitePixels : ℕ → Bool → ℕ
  tiltDownOk : ℕ → Bool → Bool
  stuckSyncOk : ℕ → Bool → Bool

/-- Engine-thread state of `Exposure`/`ExposureThread.run`: the command
queue (owned jointly with the producer side), the `canceled` flag
(written by the producer on `exitPrint` and by the engine on stuck
cancel), the UV LED state, the pending exposure compensation (seconds),
the `wasStirring` flag, `actualLayer`, the tower `position` accumulator
(usteps), `resinCount` (ml), the remaining pre-allocated `slowLayers`
budget, the previous layer white-pixel count, and the local `stuck`
flag of `run`. -/
structure ExpoState where
  queue : List Cmd
  canceled : Bool
  uvLedOn : Bool
  expoComp : ℚ
  wasStirring : Bool
  actualLayer : ℕ
  position : ℤ
  resinCount : ℚ
  slowLayers : ℕ
  prevWhitePixels : ℕ
  stuck : Bool
deriving DecidableEq

/-- Observable events of the run loop, used to express ordering claims. -/
inductive RunEvent where
  | observed (c : Cmd)
  | enterPauseWait
  | waitReturned (c : Cmd)
  | didUpDown
  | didFeedMe
  | layerDone (i : ℕ)
deriving DecidableEq

/-- Embeds the queue dequeue of `doWait` and of the layer-start poll
(`self.commands.get_nowait()`): the head of the FIFO if any.  `doWait`
(lines 199-223) loops until a token arrives and then returns that first
token, whatever it is — the `breakFree` membership test only exits the
loop early, the `while not command` condition already stops on any
token. -/
def doWaitQ : List Cmd → Option (Cmd × List Cmd)
  | [] => none
  | c :: rest => some (c, rest)

/-- State change of `doUpAndDown` (lines 150-196): the tower position
accumulator gains `upAndDownZoffset` and is clamped at 0; motion and UI
are external effects. -/
def doUpDownSim (cfg : SlHwConfig) (s : ExpoState) : ExpoState :=
  let p1 := s.position + cfg.upAndDownZoffset
  { s with position := if p1 < 0 then 0 else p1 }

/-- Embeds `doStuckRelease` (lines 226-262) as seen from the queue and the
environment: wait for the first token (`"back"` returns failure), then
try `tiltSyncWait(retries=1)`; on re-home failure show the error page,
wait for any token and return failure; on success return success. -/
def doStuckRelease (env : RunEnv) (i : ℕ) (second : Bool) (q : List Cmd) :
    Option (Bool × List Cmd) :=
  match doWaitQ q with
  | none => none
  | some (c, q1) =>
    if c = Cmd.back then some (false, q1)
    else if env.stuckSyncOk i second then some (true, q1)
    else
      match doWaitQ q1 with
      | none => none
      | some (_, q2) => some (false, q2)

/-- State summary of one `doFrame` call (lines 38-147): the white-pixel
count comes from the environment; under `hwConfig.tilt` the slow-layer
budget is decremented when the count exceeds the threshold and the
result of `tiltLayerDownWait` decides success, otherwise the frame always
succeeds.  Returns (success, whitePixels, new slow-layer budget). -/
def doFrameSim (cfg : SlHwConfig) (env : RunEnv) (i : ℕ) (second : Bool)
    (slowLayers : ℕ) : Bool × ℕ × ℕ :=
  let wp := env.whitePixels i second
  if cfg.tilt then
    let slowMove : Bool := decide ((wp : ℚ) > cfg.whitePixelsThd)
    let slowLayers1 := if slowMove ∧ slowLayers ≠ 0 then slowLayers - 1 else slowLayers
    (env.tiltDownOk i second, wp, slowLayers1)
  else
    (true, wp, slowLayers)

/-- Result of one iteration of the `for i in range(totalLayers)` loop:
continue with the next layer, leave the loop (`break`), or block forever
on an empty queue inside a `doWait`. -/
inductive StepOut where
  | next (s : ExpoState) (evs : List RunEvent)
  | breakLoop (s : ExpoState) (evs : List RunEvent)
  | blocked (s : ExpoState) (evs : List RunEvent)
deriving DecidableEq

/-- Early-exit-aware sequencing of iteration stages: an early loop exit
short-circuits, otherwise the next stage consumes the state and events. -/
def stepBind (a : StepOut ⊕ (ExpoState × List RunEvent))
    (f : ExpoState → List RunEvent → StepOut ⊕ (ExpoState × List RunEvent)) :
    StepOut ⊕ (ExpoState × List RunEvent) :=
  match a with
  | Sum.inl out => Sum.inl out
  | Sum.inr (sc, evc) => f sc evc

/-- The `pause` branch (lines 300-312): UV LED off unless blink exposure,
then block on the queue; an `exit` reply breaks the loop, any other reply
resumes (UV LED back on unless blink exposure). -/
def pauseBranch (cfg : SlHwConfig) (cmd : Option Cmd) (s : ExpoState)
    (evs : List RunEvent) : StepOut ⊕ (ExpoState × List RunEvent) :=
  if cmd = some Cmd.pause then
    let s1 := if cfg.blinkExposure then s else { s with uvLedOn := false }
    match doWaitQ s1.queue with
    | none => Sum.inl (StepOut.blocked s1 (evs ++ [RunEvent.enterPauseWait]))
    | some (w, qw) =>
      if w = Cmd.exitTok then
        Sum.inl (StepOut.breakLoop { s1 with queue := qw }
          (evs ++ [RunEvent.enterPauseWait, RunEvent.waitReturned w]))
      else
        let s2 := if cfg.blinkExposure then { s1 with queue := qw }
                  else { s1 with queue := qw, uvLedOn := true }
        Sum.inr (s2, evs ++ [RunEvent.enterPauseWait, RunEvent.waitReturned w])
  else Sum.inr (s, evs)

/-- The `feedme`/`feedmeByButton` branch (lines 314-342): raise tilt,
prompt, block on the queue and discard whatever token arrives, re-stir. -/
def feedBranch (cmd : Option Cmd) (s : ExpoState) (evs : List RunEvent) :
    StepOut ⊕ (ExpoState × List RunEvent) :=
  if cmd = some Cmd.feedme ∨ cmd = some Cmd.feedmeByButton then
    match doWaitQ s.queue with
    | none => Sum.inl (StepOut.blocked s evs)
    | some (_, qf) =>
      Sum.inr ({ s with queue := qf, wasStirring := true },
        evs ++ [RunEvent.didFeedMe])
  else Sum.inr (s, evs)

/-- The automatic every-N-layers up-and-down (lines 344-348). -/
def autoUpDownBranch (cfg : SlHwConfig) (s : ExpoState) (evs : List RunEvent) :
    ExpoState × List RunEvent :=
  if cfg.upAndDownEveryLayer ≠ 0 ∧ s.actualLayer ≠ 0 ∧
      s.actualLayer % cfg.upAndDownEveryLayer = 0 then
    ({ doUpDownSim cfg s with
        wasStirring := true,
        expoComp := (cfg.upAndDownExpoComp : ℚ) / 10 },
      evs ++ [RunEvent.didUpDown])
  else (s, evs)

/-- The non-blocking layer-start poll (`self.commands.get_nowait()`,
lines 281-288): dequeue the head token if any. -/
def pollStage (s : ExpoState) : Option Cmd × ExpoState × List RunEvent :=
  match s.queue with
  | [] => (none, s, [])
  | c :: q => (some c, { s with queue := q }, [RunEvent.observed c])

/-- The `updown` command branch (lines 290-294). -/
def updownStage (cfg : SlHwConfig) (cmd : Option Cmd) (s : ExpoState)
    (evs : List RunEvent) : ExpoState × List RunEvent :=
  if cmd = some Cmd.updown then
    ({ doUpDownSim cfg s with
        wasStirring := true,
        expoComp := (cfg.upAndDownExpoComp : ℚ) / 10 },
      evs ++ [RunEvent.didUpDown])
  else (s, evs)

/-- The command-handling prefix of one loop iteration
(lines 281-348): the non-blocking poll, then the `updown`, `exit`,
`pause` and `feedme` branches and the automatic every-N-layers up-and-down.
Returns either an early loop exit or the state and events with which the
layer body proceeds. -/
def commandStage (cfg : SlHwConfig) (s : ExpoState) :
    StepOut ⊕ (ExpoState × List RunEvent) :=
  let p := pollStage s
  let su := updownStage cfg p.1 p.2.1 p.2.2
  if p.1 = some Cmd.exitTok then
    Sum.inl (StepOut.breakLoop su.1 su.2)
  else
    stepBind (pauseBranch cfg p.1 su.1 su.2) (fun sp evp =>
      stepBind (feedBranch p.1 sp evp) (fun sf evf =>
        Sum.inr (autoUpDownBranch cfg sf evf)))

/-- One `doFrame` call with its stuck handling (lines 395-424): on frame
failure, `doStuckRelease` decides between resuming and breaking the loop;
the first-frame break also sets the `canceled` flag (line 405), the
per-partes second-frame break sets only `stuck` (lines 420-423). -/
def frameAttempt (cfg : SlHwConfig) (env : RunEnv) (i : ℕ) (second : Bool)
    (s : ExpoState) (evs : List RunEvent) :
    StepOut ⊕ (ExpoState × List RunEvent) :=
  let f := doFrameSim cfg env i second s.slowLayers
  let s5 := { s with slowLayers := f.2.2 }
  if f.1 then Sum.inr (s5, evs)
  else
    match doStuckRelease env i second s5.queue with
    | none => Sum.inl (StepOut.blocked s5 evs)
    | some (ok, qs) =>
      if ok then Sum.inr ({ s5 with queue := qs }, evs)
      else Sum.inl (StepOut.breakLoop
        (if second then { s5 with queue := qs, stuck := true }
         else { s5 with queue := qs, canceled := true, stuck := true }) evs)

/-- Lines 379-383 of the layer body: clear the pending exposure
compensation, advance `actualLayer` and the tower position accumulator by
the bucketed step height. -/
def layerPrep (pc : PrintConfig) (i : ℕ) (s3 : ExpoState) : ExpoState :=
  { s3 with
      expoComp := 0
      actualLayer := i + 1
      position := s3.position + (layerParams pc i).1 }

/-- The per-partes second exposure (lines 410-424): repeated only when
enabled and the first frame's white-pixel count exceeds the threshold. -/
def perPartesStage (cfg : SlHwConfig) (env : RunEnv) (i : ℕ) (wp : ℕ)
    (s6 : ExpoState) (ev6 : List RunEvent) :
    StepOut ⊕ (ExpoState × List RunEvent) :=
  if cfg.perPartes ∧ (wp : ℚ) > cfg.whitePixelsThd then
    frameAttempt cfg env i true s6 ev6
  else Sum.inr (s6, ev6)

/-- The frame part of the layer body: first frame with stuck handling,
then the per-partes second frame. -/
def layerBody (pc : PrintConfig) (cfg : SlHwConfig) (env : RunEnv) (i : ℕ)
    (s3 : ExpoState) (evs : List RunEvent) :
    StepOut ⊕ (ExpoState × List RunEvent) :=
  stepBind (frameAttempt cfg env i false (layerPrep pc i s3) evs)
    (perPartesStage cfg env i (env.whitePixels i false))

/-- The layer body of one loop iteration (lines 350-442): bucketing, the
exposure compensation reset, the position advance, the first `doFrame`,
the per-partes second frame when the white-pixel count warrants it, and
the resin-counter accumulation
`resinCount += whitePixels * screenPixelSize ** 2 * calcMM(step) / 1000`
(line 432). -/
def layerStage (pc : PrintConfig) (cfg : SlHwConfig) (env : RunEnv) (i : ℕ)
    (s3 : ExpoState) (evs : List RunEvent) : StepOut :=
  match layerBody pc cfg env i s3 evs with
  | Sum.inl out => out
  | Sum.inr (s8, ev8) =>
    StepOut.next
      { s8 with
        prevWhitePixels := env.whitePixels i false,
        wasStirring := false,
        resinCount := s8.resinCount +
          (env.whitePixels i false : ℚ) * cfg.screenPixelSize ^ 2 *
            calcMM cfg.screwMm (layerParams pc i).1 / 1000 }
      (ev8 ++ [RunEvent.layerDone i])

/-- One iteration of the layer loop: the command stage followed, when the
loop was not left, by the layer body. -/
def runStep (pc : PrintConfig) (cfg : SlHwConfig) (env : RunEnv) (i : ℕ)
    (s : ExpoState) : StepOut :=
  match commandStage cfg s with
  | Sum.inl out => out
  | Sum.inr (sc, evc) => layerStage pc cfg env i sc evc

/-- Outcome of running the remaining layer loop: the loop completed
(normally or through `break`) or blocked forever in a wait. -/
inductive RunOutcome where
  | completed (s : ExpoState) (evs : List RunEvent)
  | blocked (s : ExpoState) (evs : List RunEvent)
deriving DecidableEq

/-- The layer loop from layer `i` with `remaining` layers still to print. -/
def runLoop (pc : PrintConfig) (cfg : SlHwConfig) (env : RunEnv) :
    ℕ → ℕ → ExpoState → RunOutcome
  | _, 0, s => RunOutcome.completed s []
  | i, remaining + 1, s =>
    match runStep pc cfg env i s with
    | StepOut.next s1 evs =>
      match runLoop pc cfg env (i + 1) remaining s1 with
      | RunOutcome.completed s2 evs2 => RunOutcome.completed s2 (evs ++ evs2)
      | RunOutcome.blocked s2 evs2 => RunOutcome.blocked s2 (evs ++ evs2)
    | StepOut.breakLoop s1 evs => RunOutcome.completed s1 evs
    | StepOut.blocked s1 evs => RunOutcome.blocked s1 evs

/-- State carried by a loop outcome. -/
def outcomeState : RunOutcome → ExpoState
  | RunOutcome.completed s _ => s
  | RunOutcome.blocked s _ => s

/-- Events carried by a loop outcome. -/
def outcomeEvents : RunOutcome → List RunEvent
  | RunOutcome.completed _ evs => evs
  | RunOutcome.blocked _ evs => evs

/-- Terminal states of the exposure state machine
(sl1fw/states/exposure.py, `ExposureState.finished_states`). -/
inductive ExposureFinal where
  | finished
  | canceled
  | failure
  | done
deriving DecidableEq

/-- Modelled from the spec: the generation under firmware/sl1fw has no
state enum in `run` itself; which terminal state a completed print
reports is decided by the `canceled` flag (set by `Page.exitPrint`,
firmware/sl1fw/libPages.py lines 671-676, and read by pages/finished.py),
per spec section 4.5: final state is CANCELED if flagged canceled, else
FINISHED. -/
def finalExposureState (s : ExpoState) : ExposureFinal :=
  if s.canceled then ExposureFinal.canceled else ExposureFinal.finished

/-- Embeds `Exposure.doPause` (firmware/sl1fw/libExposure.py,
lines 676-678): enqueue a `pause` token. -/
def doPauseCmd (s : ExpoState) : ExpoState :=
  { s with queue := s.queue ++ [Cmd.pause] }

/-- Embeds `Page.exitPrint` (firmware/sl1fw/libPages.py, lines 671-676):
`doExitPrint` enqueues the `exit` token and the `canceled` flag is set. -/
def exitPrintCmd (s : ExpoState) : ExpoState :=
  { s with queue := s.queue ++ [Cmd.exitTok], canceled := true }

/-- State in which the C2 scenario leaves the engine: queue drained,
canceled flag set, UV LED off unless blink exposure keeps it with motion;
everything else untouched. -/
def c2FinalState (cfg : SlHwConfig) (s : ExpoState) : ExpoState :=
  { s with
      queue := []
      canceled := true
      uvLedOn := if cfg.blinkExposure then s.uvLedOn else false }

/-- C2: if a `pause` token and then an `exit` token are enqueued (via the
`doPause` and `exitPrint` producers) before the engine's next layer-start
poll, then whatever layer index is next and however many layers remain,
the engine observes `pause` first and enters the paused wait, then dequeues
`exit` while paused and terminates the loop at once: the outcome is the
completed loop whose whole event trace is exactly
observe-pause, enter-pause-wait, wait-returned-exit — in FIFO order, with
commands observed only at those poll points, with no layer event — and the
final state is the CANCELED terminal state. -/
theorem c2_pause_then_exit_cancels (pc : PrintConfig) (cfg : SlHwConfig)
    (env : RunEnv) (i n : ℕ) (s : ExpoState)
    (hq : s.queue = []) (hn : 1 ≤ n) :
    runLoop pc cfg env i n (exitPrintCmd (doPauseCmd s)) =
      RunOutcome.completed (c2FinalState cfg s)
        [RunEvent.observed Cmd.pause, RunEvent.enterPauseWait,
         RunEvent.waitReturned Cmd.exitTok] ∧
    finalExposureState
        (outcomeState (runLoop pc cfg env i n (exitPrintCmd (doPauseCmd s)))) =
      ExposureFinal.canceled ∧
    ∀ j, RunEvent.layerDone j ∉
      outcomeEvents (runLoop pc cfg env i n (exitPrintCmd (doPauseCmd s))) := by
  obtain ⟨m, rfl⟩ : ∃ m, n = m + 1 := ⟨n - 1, by omega⟩
  have hmain : runLoop pc cfg env i (m + 1) (exitPrintCmd (doPauseCmd s)) =
      RunOutcome.completed (c2FinalState cfg s)
        [RunEvent.observed Cmd.pause, RunEvent.enterPauseWait,
         RunEvent.waitReturned Cmd.exitTok] := by
    cases hb : cfg.blinkExposure with
    | false =>
      simp [runLoop, runStep, commandStage, pollStage, updownStage, pauseBranch,
        feedBranch, autoUpDownBranch, stepBind, doWaitQ, exitPrintCmd, doPauseCmd,
        c2FinalState, hq, hb]
    | true =>
      simp [runLoop, runStep, commandStage, pollStage, updownStage, pauseBranch,
        feedBranch, autoUpDownBranch, stepBind, doWaitQ, exitPrintCmd, doPauseCmd,
        c2FinalState, hq, hb]
  refine ⟨hmain, ?_, ?_⟩
  · rw [hmain]
    simp [outcomeState, finalExposureState, c2FinalState]
  · intro j
    rw [hmain]
    simp [outcomeEvents]


/-- State carried by a step outcome. -/
def stepOutState : StepOut → ExpoState
  | StepOut.next s _ => s
  | StepOut.breakLoop s _ => s
  | StepOut.blocked s _ => s

/-- The exact resin increment of layer `i` per libExposure.py line 432:
`whitePixels * screenPixelSize ** 2 * calcMM(step) / 1000` millilitres. -/
def layerResinIncrement (pc : PrintConfig) (cfg : SlHwConfig) (env : RunEnv)
    (i : ℕ) : ℚ :=
  (env.whitePixels i false : ℚ) * cfg.screenPixelSize ^ 2 *
    calcMM cfg.screwMm (layerStep pc i) / 1000

/-- A stage result whose every branch carries resin counter `r`. -/
def keepsResin (r : ℚ) : StepOut ⊕ (ExpoState × List RunEvent) → Prop
  | Sum.inl out => (stepOutState out).resinCount = r
  | Sum.inr (sc, _) => sc.resinCount = r

/-- A stage result that is never a `next` outcome. -/
def noNextOut : StepOut ⊕ (ExpoState × List RunEvent) → Prop
  | Sum.inl (StepOut.next _ _) => False
  | _ => True

/-- Sequencing preserves the resin counter when both stages do. -/
theorem stepBind_keepsResin (r : ℚ) (a : StepOut ⊕ (ExpoState × List RunEvent))
    (f : ExpoState → List RunEvent → StepOut ⊕ (ExpoState × List RunEvent))
    (ha : keepsResin r a)
    (hf : ∀ sc evc, sc.resinCount = r → keepsResin r (f sc evc)) :
    keepsResin r (stepBind a f) := by
  unfold stepBind
  cases a with
  | inl out => exact ha
  | inr p =>
    obtain ⟨sc, evc⟩ := p
    exact hf sc evc ha

/-- Sequencing never introduces a `next` outcome when both stages avoid
it. -/
theorem stepBind_noNextOut (a : StepOut ⊕ (ExpoState × List RunEvent))
    (f : ExpoState → List RunEvent → StepOut ⊕ (ExpoState × List RunEvent))
    (ha : noNextOut a) (hf : ∀ sc evc, noNextOut (f sc evc)) :
    noNextOut (stepBind a f) := by
  unfold stepBind
  cases a with
  | inl out => exact ha
  | inr p =>
    obtain ⟨sc, evc⟩ := p
    exact hf sc evc

/-- The pause branch preserves the resin counter. -/
theorem pauseBranch_keepsResin (cfg : SlHwConfig) (cmd : Option Cmd)
    (s : ExpoState) (evs : List RunEvent) :
    keepsResin s.resinCount (pauseBranch cfg cmd s evs) := by
  unfold pauseBranch
  split
  case isTrue =>
    cases hqu : s.queue with
    | nil =>
      cases hb : cfg.blinkExposure <;>
        simp [doWaitQ, hb, hqu, keepsResin, stepOutState]
    | cons hd tl =>
      cases hb : cfg.blinkExposure <;>
        by_cases hw : hd = Cmd.exitTok <;>
          simp [doWaitQ, hb, hqu, hw, keepsResin, stepOutState]
  case isFalse => simp [keepsResin]

/-- The pause branch never produces a `next` outcome. -/
theorem pauseBranch_noNextOut (cfg : SlHwConfig) (cmd : Option Cmd)
    (s : ExpoState) (evs : List RunEvent) :
    noNextOut (pauseBranch cfg cmd s evs) := by
  unfold pauseBranch
  split
  case isTrue =>
    cases hqu : s.queue with
    | nil =>
      cases hb : cfg.blinkExposure <;>
        simp [doWaitQ, hb, hqu, noNextOut]
    | cons hd tl =>
      cases hb : cfg.blinkExposure <;>
        by_cases hw : hd = Cmd.exitTok <;>
          simp [doWaitQ, hb, hqu, hw, noNextOut]
  case isFalse => simp [noNextOut]

/-- The feed-me branch preserves the resin counter. -/
theorem feedBranch_keepsResin (cmd : Option Cmd) (s : ExpoState)
    (evs : List RunEvent) : keepsResin s.resinCount (feedBranch cmd s evs) := by
  unfold feedBranch
  split
  · cases hqu : s.queue <;> simp [doWaitQ, hqu, keepsResin, stepOutState]
  · simp [keepsResin]

/-- The feed-me branch never produces a `next` outcome. -/
theorem feedBranch_noNextOut (cmd : Option Cmd) (s : ExpoState)
    (evs : List RunEvent) : noNextOut (feedBranch cmd s evs) := by
  unfold feedBranch
  split
  · cases hqu : s.queue <;> simp [doWaitQ, hqu, noNextOut]
  · simp [noNextOut]

/-- The automatic up-and-down preserves the resin counter. -/
theorem autoUpDownBranch_resin (cfg : SlHwConfig) (s : ExpoState)
    (evs : List RunEvent) : (autoUpDownBranch cfg s evs).1.resinCount = s.resinCount := by
  unfold autoUpDownBranch
  split <;> simp [doUpDownSim]

/-- The poll preserves the resin counter. -/
theorem pollStage_resin (s : ExpoState) :
    (pollStage s).2.1.resinCount = s.resinCount := by
  unfold pollStage
  split <;> simp

/-- The updown branch preserves the resin counter. -/
theorem updownStage_resin (cfg : SlHwConfig) (cmd : Option Cmd)
    (s : ExpoState) (evs : List RunEvent) :
    (updownStage cfg cmd s evs).1.resinCount = s.resinCount := by
  unfold updownStage
  split <;> simp [doUpDownSim]

/-- The command stage preserves the resin counter. -/
theorem commandStage_keepsResin (cfg : SlHwConfig) (s : ExpoState) :
    keepsResin s.resinCount (commandStage cfg s) := by
  unfold commandStage
  dsimp only
  have hu : (updownStage cfg (pollStage s).1 (pollStage s).2.1
      (pollStage s).2.2).1.resinCount = s.resinCount := by
    rw [updownStage_resin, pollStage_resin]
  split
  · simpa [keepsResin, stepOutState] using hu
  · apply stepBind_keepsResin
    · have h := pauseBranch_keepsResin cfg (pollStage s).1
        (updownStage cfg (pollStage s).1 (pollStage s).2.1 (pollStage s).2.2).1
        (updownStage cfg (pollStage s).1 (pollStage s).2.1 (pollStage s).2.2).2
      rwa [hu] at h
    · intro sp evp hsp
      apply stepBind_keepsResin
      · have h := feedBranch_keepsResin (pollStage s).1 sp evp
        rwa [hsp] at h
      · intro sf evf hsf
        simp [keepsResin, autoUpDownBranch_resin, hsf]

/-- The command stage never produces a `next` outcome. -/
theorem commandStage_noNextOut (cfg : SlHwConfig) (s : ExpoState) :
    noNextOut (commandStage cfg s) := by
  unfold commandStage
  dsimp only
  split
  · simp [noNextOut]
  · apply stepBind_noNextOut
    · apply pauseBranch_noNextOut
    · intro sp evp
      apply stepBind_noNextOut
      · apply feedBranch_noNextOut
      · intro sf evf
        simp [noNextOut]

/-- A simulated frame succeeds when its tilt tear-off oracle succeeds. -/
theorem doFrameSim_success (cfg : SlHwConfig) (env : RunEnv) (i : ℕ)
    (second : Bool) (sl : ℕ) (hok : env.tiltDownOk i second = true) :
    (doFrameSim cfg env i second sl).1 = true := by
  unfold doFrameSim
  dsimp only
  split <;> simp [hok]

/-- A frame attempt preserves the resin counter. -/
theorem frameAttempt_keepsResin (cfg : SlHwConfig) (env : RunEnv) (i : ℕ)
    (second : Bool) (s : ExpoState) (evs : List RunEvent) :
    keepsResin s.resinCount (frameAttempt cfg env i second s evs) := by
  unfold frameAttempt
  dsimp only
  split
  · simp [keepsResin]
  · cases hsr : doStuckRelease env i second s.queue with
    | none =>
      simp [keepsResin, stepOutState]
    | some p =>
      obtain ⟨ok, qs⟩ := p
      cases ok <;> cases second <;> simp [keepsResin, stepOutState]

/-- A frame attempt never produces a `next` outcome. -/
theorem frameAttempt_noNextOut (cfg : SlHwConfig) (env : RunEnv) (i : ℕ)
    (second : Bool) (s : ExpoState) (evs : List RunEvent) :
    noNextOut (frameAttempt cfg env i second s evs) := by
  unfold frameAttempt
  dsimp only
  split
  · simp [noNextOut]
  · cases hsr : doStuckRelease env i second s.queue with
    | none =>
      simp [noNextOut]
    | some p =>
      obtain ⟨ok, qs⟩ := p
      cases ok <;> cases second <;> simp [noNextOut]

/-- A successful frame attempt only updates the slow-layer budget. -/
theorem frameAttempt_success (cfg : SlHwConfig) (env : RunEnv) (i : ℕ)
    (second : Bool) (s : ExpoState) (evs : List RunEvent)
    (hok : env.tiltDownOk i second = true) :
    frameAttempt cfg env i second s evs =
      Sum.inr ({ s with slowLayers := (doFrameSim cfg env i second s.slowLayers).2.2 },
        evs) := by
  unfold frameAttempt
  dsimp only
  rw [if_pos (doFrameSim_success cfg env i second s.slowLayers hok)]

/-- The frame part of the layer body preserves the resin counter. -/
theorem layerBody_keepsResin (pc : PrintConfig) (cfg : SlHwConfig)
    (env : RunEnv) (i : ℕ) (s3 : ExpoState) (evs : List RunEvent) :
    keepsResin s3.resinCount (layerBody pc cfg env i s3 evs) := by
  unfold layerBody
  apply stepBind_keepsResin
  · have h := frameAttempt_keepsResin cfg env i false (layerPrep pc i s3) evs
    have hp : (layerPrep pc i s3).resinCount = s3.resinCount := by simp [layerPrep]
    rwa [hp] at h
  · intro sc evc hsc
    unfold perPartesStage
    split
    · have h := frameAttempt_keepsResin cfg env i true sc evc
      rwa [hsc] at h
    · simp [keepsResin, hsc]

/-- The frame part of the layer body never produces a `next` outcome. -/
theorem layerBody_noNextOut (pc : PrintConfig) (cfg : SlHwConfig)
    (env : RunEnv) (i : ℕ) (s3 : ExpoState) (evs : List RunEvent) :
    noNextOut (layerBody pc cfg env i s3 evs) := by
  unfold layerBody
  apply stepBind_noNextOut
  · apply frameAttempt_noNextOut
  · intro sc evc
    unfold perPartesStage
    split
    · apply frameAttempt_noNextOut
    · simp [noNextOut]

/-- When both frame oracles succeed, the frame part of the layer body
resumes with the same queue and the same events. -/
theorem layerBody_success (pc : PrintConfig) (cfg : SlHwConfig)
    (env : RunEnv) (i : ℕ) (s3 : ExpoState) (evs : List RunEvent)
    (hok1 : env.tiltDownOk i false = true) (hok2 : env.tiltDownOk i true = true) :
    ∃ s8, layerBody pc cfg env i s3 evs = Sum.inr (s8, evs) ∧
      s8.queue = s3.queue := by
  unfold layerBody
  rw [frameAttempt_success cfg env i false (layerPrep pc i s3) evs hok1]
  unfold stepBind
  dsimp only
  unfold perPartesStage
  split
  · rw [frameAttempt_success cfg env i true _ evs hok2]
    exact ⟨_, rfl, by simp [layerPrep]⟩
  · exact ⟨_, rfl, by simp [layerPrep]⟩

/-- When the layer body completes the layer, the resin counter grows by
exactly the per-layer increment. -/
theorem layerStage_next_resin (pc : PrintConfig) (cfg : SlHwConfig)
    (env : RunEnv) (i : ℕ) (s3 : ExpoState) (evs : List RunEvent)
    (s' : ExpoState) (evs' : List RunEvent)
    (h : layerStage pc cfg env i s3 evs = StepOut.next s' evs') :
    s'.resinCount = s3.resinCount + layerResinIncrement pc cfg env i := by
  unfold layerStage at h
  have hk := layerBody_keepsResin pc cfg env i s3 evs
  cases hb : layerBody pc cfg env i s3 evs with
  | inl out =>
    rw [hb] at h hk
    have hn := layerBody_noNextOut pc cfg env i s3 evs
    rw [hb] at hn
    dsimp only at h
    subst h
    simp [noNextOut] at hn
  | inr p =>
    obtain ⟨s8, ev8⟩ := p
    rw [hb] at h hk
    dsimp only at h
    cases h
    simp only [keepsResin] at hk
    simp [layerResinIncrement, layerStep, hk]

/-- When the layer stage leaves the loop or blocks, the resin counter is
unchanged. -/
theorem layerStage_stop_resin (pc : PrintConfig) (cfg : SlHwConfig)
    (env : RunEnv) (i : ℕ) (s3 : ExpoState) (evs : List RunEvent)
    (s' : ExpoState) (evs' : List RunEvent)
    (h : layerStage pc cfg env i s3 evs = StepOut.breakLoop s' evs' ∨
         layerStage pc cfg env i s3 evs = StepOut.blocked s' evs') :
    s'.resinCount = s3.resinCount := by
  unfold layerStage at h
  have hk := layerBody_keepsResin pc cfg env i s3 evs
  cases hb : layerBody pc cfg env i s3 evs with
  | inl out =>
    rw [hb] at h hk
    dsimp only at h
    rcases h with h | h <;> subst h <;>
      simpa [keepsResin, stepOutState] using hk
  | inr p =>
    obtain ⟨s8, ev8⟩ := p
    rw [hb] at h
    dsimp only at h
    rcases h with h | h <;> cases h

/-- Resin accounting of one loop iteration: a completed layer adds exactly
the per-layer increment; leaving the loop or blocking leaves the counter
unchanged. -/
theorem runStep_resin (pc : PrintConfig) (cfg : SlHwConfig) (env : RunEnv)
    (i : ℕ) (s : ExpoState) :
    (∀ s' evs', runStep pc cfg env i s = StepOut.next s' evs' →
      s'.resinCount = s.resinCount + layerResinIncrement pc cfg env i) ∧
    (∀ s' evs', runStep pc cfg env i s = StepOut.breakLoop s' evs' →
      s'.resinCount = s.resinCount) ∧
    (∀ s' evs', runStep pc cfg env i s = StepOut.blocked s' evs' →
      s'.resinCount = s.resinCount) := by
  unfold runStep
  have hk := commandStage_keepsResin cfg s
  have hn := commandStage_noNextOut cfg s
  cases hcs : commandStage cfg s with
  | inl out =>
    rw [hcs] at hk hn
    simp only [keepsResin, stepOutState] at hk
    cases out with
    | next s1 evs1 => simp [noNextOut] at hn
    | breakLoop s1 evs1 =>
      refine ⟨?_, ?_, ?_⟩ <;> intro s' evs' h <;> dsimp only at h <;> cases h
      exact hk
    | blocked s1 evs1 =>
      refine ⟨?_, ?_, ?_⟩ <;> intro s' evs' h <;> dsimp only at h <;> cases h
      exact hk
  | inr p =>
    obtain ⟨sc, evc⟩ := p
    rw [hcs] at hk
    simp only [keepsResin] at hk
    refine ⟨?_, ?_, ?_⟩ <;> intro s' evs' h <;> dsimp only at h
    · rw [layerStage_next_resin pc cfg env i sc evc s' evs' h, hk]
    · rw [layerStage_stop_resin pc cfg env i sc evc s' evs' (Or.inl h), hk]
    · rw [layerStage_stop_resin pc cfg env i sc evc s' evs' (Or.inr h), hk]

/-- Half-to-even rounding of a non-negative rational is non-negative. -/
theorem roundHalfEven_nonneg (x : ℚ) (hx : 0 ≤ x) : 0 ≤ roundHalfEven x := by
  unfold roundHalfEven
  have hf : 0 ≤ ⌊x⌋ := Int.floor_nonneg.2 hx
  dsimp only
  split
  · exact hf
  · split
    · omega
    · split <;> omega

/-- `calcMM` of a non-negative microstep count is non-negative for a
positive screw pitch. -/
theorem calcMM_nonneg (screw : ℚ) (hs : 0 < screw) (st : ℤ) (hst : 0 ≤ st) :
    0 ≤ calcMM screw st := by
  unfold calcMM
  have hd : (0 : ℚ) < 200 * 16 / screw := by positivity
  have h1 : (0 : ℚ) ≤ (st : ℚ) / (200 * 16 / screw) * 1000 := by
    apply mul_nonneg _ (by norm_num)
    apply div_nonneg _ (le_of_lt hd)
    exact_mod_cast hst
  have h2 := roundHalfEven_nonneg _ h1
  have h3 : (0 : ℚ) ≤ (roundHalfEven ((st : ℚ) / (200 * 16 / screw) * 1000) : ℚ) := by
    exact_mod_cast h2
  positivity

/-- The bucketed step height is always one of the four configured step
fields. -/
theorem layerStep_mem (pc : PrintConfig) (i : ℕ) :
    layerStep pc i = pc.layerMicroStepsFirst ∨ layerStep pc i = pc.layerMicroSteps ∨
    layerStep pc i = pc.layerMicroSteps2 ∨ layerStep pc i = pc.layerMicroSteps3 := by
  unfold layerStep layerParams
  repeat' split
  all_goals tauto

/-- The per-layer resin increment is non-negative when the configured step
heights are non-negative and the screw pitch is positive. -/
theorem layerResinIncrement_nonneg (pc : PrintConfig) (cfg : SlHwConfig)
    (env : RunEnv) (i : ℕ)
    (h1 : 0 ≤ pc.layerMicroStepsFirst) (h2 : 0 ≤ pc.layerMicroSteps)
    (h3 : 0 ≤ pc.layerMicroSteps2) (h4 : 0 ≤ pc.layerMicroSteps3)
    (hs : 0 < cfg.screwMm) : 0 ≤ layerResinIncrement pc cfg env i := by
  unfold layerResinIncrement
  have hstep : 0 ≤ layerStep pc i := by
    rcases layerStep_mem pc i with h | h | h | h <;> rw [h] <;> assumption
  have hmm := calcMM_nonneg cfg.screwMm hs (layerStep pc i) hstep
  apply div_nonneg _ (by norm_num)
  apply mul_nonneg (mul_nonneg (by positivity) (sq_nonneg _)) hmm

/-- C5: every completed layer increments the resin counter by exactly
`white_pixels * screenPixelSize ** 2 * calcMM(step) / 1000` millilitres,
and for every print whose configured step heights are non-negative (white
pixel counts are naturals, hence non-negative) the resin counter is
non-decreasing across the whole layer loop, whatever commands arrive and
wherever the loop stops. -/
theorem c5_resin_increment_and_monotone (pc : PrintConfig) (cfg : SlHwConfig)
    (env : RunEnv)
    (h1 : 0 ≤ pc.layerMicroStepsFirst) (h2 : 0 ≤ pc.layerMicroSteps)
    (h3 : 0 ≤ pc.layerMicroSteps2) (h4 : 0 ≤ pc.layerMicroSteps3)
    (hs : 0 < cfg.screwMm) :
    (∀ i s s' evs', runStep pc cfg env i s = StepOut.next s' evs' →
      s'.resinCount = s.resinCount + layerResinIncrement pc cfg env i) ∧
    (∀ n i s, s.resinCount ≤ (outcomeState (runLoop pc cfg env i n s)).resinCount) := by
  constructor
  · intro i s s' evs' h
    exact (runStep_resin pc cfg env i s).1 s' evs' h
  · intro n
    induction n with
    | zero =>
      intro i s
      simp [runLoop, outcomeState]
    | succ m ih =>
      intro i s
      rw [runLoop]
      cases hstep : runStep pc cfg env i s with
      | next s1 evs1 =>
        have hr : s1.resinCount = s.resinCount + layerResinIncrement pc cfg env i :=
          (runStep_resin pc cfg env i s).1 s1 evs1 hstep
        have hinc := layerResinIncrement_nonneg pc cfg env i h1 h2 h3 h4 hs
        have hih := ih (i + 1) s1
        cases hrl : runLoop pc cfg env (i + 1) m s1 with
        | completed s2 evs2 =>
          rw [hrl] at hih
          simp only [hrl, outcomeState] at hih ⊢
          linarith
        | blocked s2 evs2 =>
          rw [hrl] at hih
          simp only [hrl, outcomeState] at hih ⊢
          linarith
      | breakLoop s1 evs1 =>
        have hr : s1.resinCount = s.resinCount :=
          (runStep_resin pc cfg env i s).2.1 s1 evs1 hstep
        simp [outcomeState, hr]
      | blocked s1 evs1 =>
        have hr : s1.resinCount = s.resinCount :=
          (runStep_resin pc cfg env i s).2.2 s1 evs1 hstep
        simp [outcomeState, hr]

/-- State with which the engine resumes the layer after a pause wait ended
by a non-exit token: queue advanced past the token, UV LED back on unless
blink exposure keeps it with motion. -/
def pauseResumeState (cfg : SlHwConfig) (s : ExpoState) (rest : List Cmd) :
    ExpoState :=
  { s with
      queue := rest
      uvLedOn := if cfg.blinkExposure then s.uvLedOn else true }

/-- C10: during a blocking wait the engine returns the first command token
it dequeues whatever that token is — `doWait` of a nonempty queue yields
the head, not only `exit`/`back`/`continue` — and in the paused wait any
non-exit token (for example `feedme`, `pause` or `updown`) merely ends the
wait: it is consumed, the iteration proceeds straight to the layer body,
and the token is never acted upon — no feed-me, no up-and-down event — the
queue continuing from the remaining tokens. -/
theorem c10_wait_returns_any_token (pc : PrintConfig) (cfg : SlHwConfig)
    (env : RunEnv) (i : ℕ) (s : ExpoState) (t : Cmd) (rest : List Cmd)
    (hq : s.queue = Cmd.pause :: t :: rest)
    (ht : t ≠ Cmd.exitTok)
    (hud : cfg.upAndDownEveryLayer = 0)
    (hok1 : env.tiltDownOk i false = true)
    (hok2 : env.tiltDownOk i true = true) :
    (∀ c q, doWaitQ (c :: q) = some (c, q)) ∧
    ∃ s', runStep pc cfg env i s =
        StepOut.next s' [RunEvent.observed Cmd.pause, RunEvent.enterPauseWait,
          RunEvent.waitReturned t, RunEvent.layerDone i] ∧
      s'.queue = rest := by
  refine ⟨fun c q => rfl, ?_⟩
  have hcs : commandStage cfg s = Sum.inr (pauseResumeState cfg s rest,
      [RunEvent.observed Cmd.pause, RunEvent.enterPauseWait,
       RunEvent.waitReturned t]) := by
    cases hb : cfg.blinkExposure <;>
      simp [commandStage, pollStage, updownStage, pauseBranch, feedBranch,
        autoUpDownBranch, stepBind, doWaitQ, pauseResumeState, hq, ht, hud, hb]
  unfold runStep
  rw [hcs]
  dsimp only
  obtain ⟨s8, hbody, hqueue⟩ := layerBody_success pc cfg env i
    (pauseResumeState cfg s rest)
    [RunEvent.observed Cmd.pause, RunEvent.enterPauseWait, RunEvent.waitReturned t]
    hok1 hok2
  unfold layerStage
  rw [hbody]
  dsimp only
  refine ⟨_, rfl, ?_⟩
  simpa [pauseResumeState] using hqueue

/-- Hardware configuration of the concrete run-loop witnesses: SL1
defaults (`blinkExposure` off, tilt present, per-partes off,
`whitePixelsThd = 1440 * 2560 * 35 / 100`, `screwMm = 4`), pixel size
0.046875 mm. -/
def scenarioCfg : SlHwConfig :=
  { blinkExposure := false
    tilt := true
    perPartes := false
    upAndDownEveryLayer := 0
    upAndDownExpoComp := 0
    upAndDownZoffset := 0
    whitePixelsThd := 1290240
    screwMm := 4
    screenPixelSize := 46875 / 1000000 }

/-- Environment of the concrete run-loop witnesses: 1000 white pixels per
layer, every frame and every re-home succeeds. -/
def scenarioEnv : RunEnv :=
  ⟨fun _ _ => 1000, fun _ _ => true, fun _ _ => true⟩

/-- Engine state at the start of the witness scenarios. -/
def scenarioState : ExpoState :=
  { queue := []
    canceled := false
    uvLedOn := true
    expoComp := 0
    wasStirring := true
    actualLayer := 0
    position := 0
    resinCount := 0
    slowLayers := 0
    prevWhitePixels := 0
    stuck := false }

/-- C2 witness: the pause-then-exit scenario evaluated at a concrete
2-layer print. -/
theorem c2_pause_then_exit_cancels_witness :
    runLoop c1Config scenarioCfg scenarioEnv 0 2
        (exitPrintCmd (doPauseCmd scenarioState)) =
      RunOutcome.completed (c2FinalState scenarioCfg scenarioState)
        [RunEvent.observed Cmd.pause, RunEvent.enterPauseWait,
         RunEvent.waitReturned Cmd.exitTok] ∧
    finalExposureState (outcomeState (runLoop c1Config scenarioCfg scenarioEnv 0 2
        (exitPrintCmd (doPauseCmd scenarioState)))) = ExposureFinal.canceled := by
  have h := c2_pause_then_exit_cancels c1Config scenarioCfg scenarioEnv 0 2
    scenarioState rfl (by omega)
  exact ⟨h.1, h.2.1⟩

/-- C5 witness: resin monotonicity evaluated on the concrete 2-layer
scenario. -/
theorem c5_resin_increment_and_monotone_witness :
    scenarioState.resinCount ≤
      (outcomeState
        (runLoop c1Config scenarioCfg scenarioEnv 0 2 scenarioState)).resinCount :=
  (c5_resin_increment_and_monotone c1Config scenarioCfg scenarioEnv
    (by norm_num [c1Config]) (by norm_num [c1Config]) (by norm_num [c1Config])
    (by norm_num [c1Config]) (by norm_num [scenarioCfg])).2 2 0 scenarioState

/-- C10 witness: a `feedme` token arriving during the paused wait ends the
wait, is consumed, and the layer is printed with no feed-me action. -/
theorem c10_wait_returns_any_token_witness :
    ∃ s', runStep c1Config scenarioCfg scenarioEnv 0
        { scenarioState with queue := [Cmd.pause, Cmd.feedme] } =
      StepOut.next s' [RunEvent.observed Cmd.pause, RunEvent.enterPauseWait,
        RunEvent.waitReturned Cmd.feedme, RunEvent.layerDone 0] ∧
      s'.queue = [] :=
  (c10_wait_returns_any_token c1Config scenarioCfg scenarioEnv 0
    { scenarioState with queue := [Cmd.pause, Cmd.feedme] } Cmd.feedme []
    rfl (by decide) rfl rfl rfl).2
